import Mathlib

/-!
Shallow embedding of `python/pyspark/sql/connect/column.py`: the Spark
Connect expression-tree builder and its `to_plan` lowering to the proto
wire format.

Modelling conventions:
* Python runtime values that can appear as literal payloads or operator
  operands are modelled by `PyValue`, tagged with their exact runtime
  type.  Python `float` payloads are never computed with by this core,
  only carried from the literal node into the wire slot, so the payload
  is modelled as an exact rational token.
* Python exceptions are modelled with `Except String`; the message text
  abstracts Python's rendering of the type object (`str(type(v))`) to
  the bare type name.
* The proto `Expression` message is modelled by `ProtoExpression`, an
  opaque target format with named variant slots, exactly the three
  shapes this core populates.
-/

/-- The exact runtime type of a Python value, as returned by `type(v)`. -/
inductive PyType where
  | int
  | bool
  | str
  | float
  | list
deriving DecidableEq, Repr

/-- The rendering of a Python type used in error messages; Python prints
the full `type` object, abstracted here to the bare type name. -/
def PyType.pyName : PyType → String
  | .int => "int"
  | .bool => "bool"
  | .str => "str"
  | .float => "float"
  | .list => "list"

/-- A Python runtime value that can appear as a literal payload or as the
`other` operand of an operator overload.  `vList` is the representative
non-primitive value used by the spec ("e.g. a list"). -/
inductive PyValue where
  | vInt (n : Int)
  | vBool (b : Bool)
  | vStr (s : String)
  | vFloat (f : Rat)
  | vList (xs : List PyValue)

/-- `type(v)`: the exact runtime type of a value.  Note that a Python
`bool` has exact runtime type `bool`, not `int`, even though `bool` is a
subclass of `int`. -/
def PyValue.runtimeType : PyValue → PyType
  | .vInt _ => .int
  | .vBool _ => .bool
  | .vStr _ => .str
  | .vFloat _ => .float
  | .vList _ => .list

/-- Modelled from the spec: `PrimitiveType` is defined in
`pyspark/sql/connect/_typing.py`, which is not part of the sources here;
the spec describes the recognized primitive set as
{integer, string, floating point}.  `isPrimitiveInstance v` is Python's
`isinstance(v, get_args(PrimitiveType))` = `isinstance(v, (int, str, float))`.
Because Python's `bool` is a runtime subclass of `int`, `isinstance`
accepts boolean values as well. -/
def isPrimitiveInstance : PyValue → Bool
  | .vInt _ => true
  | .vBool _ => true
  | .vStr _ => true
  | .vFloat _ => true
  | .vList _ => false

/-- Modelled from the spec: the `RemoteSparkSession` collaborator
(`pyspark/sql/connect/client.py`, not part of the sources here) is an
opaque handle passed through every lowering call and never inspected by
this core. -/
structure RemoteSparkSession where
  id : Nat
deriving DecidableEq, Repr

/-- The `literal` slot of a proto `Expression`, with the three typed
sub-slots this core populates. -/
inductive ProtoLiteral where
  | i32 (value : Int)
  | string (value : String)
  | fp64 (value : Rat)
deriving DecidableEq, Repr

/-- The proto `Expression` wire message, restricted to the three variant
slots this core ever populates. -/
inductive ProtoExpression where
  | literal (lit : ProtoLiteral)
  | unresolvedAttribute (unparsedIdentifier : String)
  | unresolvedFunction (parts : List String) (arguments : List ProtoExpression)

/-- The in-memory expression tree: the `Expression` variant family of
`column.py`.

* `literal value` — `LiteralExpression(value)`; the constructor stores
  the value without validation.
* `columnRef name` — `ColumnRef(name)` storing `_unparsed_identifier`.
* `sortOrder colName ascending nullsLast` — `SortOrder(col, ascending,
  nullsLast)`; the wrapped `ColumnRef`'s only state is its name, carried
  here as `colName`.
* `scalarFunction op args` — `ScalarFunctionExpression(op, *args)`.
* `nonExpression v` — a non-`Expression` Python object left unlifted in
  an argument slot (a value that failed the `isinstance` lift test);
  Python stores it as-is and lowering it fails because the object has no
  `to_plan` method. -/
inductive Expression where
  | literal (value : PyValue)
  | columnRef (name : String)
  | sortOrder (colName : String) (ascending : Bool) (nullsLast : Bool)
  | scalarFunction (op : String) (args : List Expression)
  | nonExpression (value : PyValue)

/-- `LiteralExpression.__init__`: stores the given value unconditionally;
the constructor body performs no validation, so construction never
raises (the `Except` result is always `ok`). -/
def LiteralExpression.init (value : PyValue) : Except String Expression :=
  .ok (.literal value)

/-- `ColumnRef.from_qualified_name`. -/
def ColumnRef.fromQualifiedName (name : String) : Expression :=
  .columnRef name

/-- `ColumnRef.name`. -/
def ColumnRef.refName (name : String) : String := name

/-- `ColumnRef.desc`: `SortOrder(self, ascending=False)` with `nullsLast`
at its default `True`. -/
def ColumnRef.desc (name : String) : Expression :=
  .sortOrder name false true

/-- `ColumnRef.asc`: `SortOrder(self, ascending=True)` with `nullsLast`
at its default `True`. -/
def ColumnRef.asc (name : String) : Expression :=
  .sortOrder name true true

/-- The `other` argument of an operator overload: either an already
constructed `Expression`, or a native Python value. -/
inductive Operand where
  | expr (e : Expression)
  | value (v : PyValue)

/-- The lift step performed at the top of `_bin_op`'s closure and of
`Expression.__eq__`:
`if isinstance(other, get_args(PrimitiveType)): other = LiteralExpression(other)`.
An `Expression` operand is not an `isinstance` match and is left as-is;
a primitive-instance value is wrapped in a `LiteralExpression` (exactly
once, non-recursively); any other value is left untouched as a
non-`Expression` object. -/
def liftOperand : Operand → Expression
  | .expr e => e
  | .value v =>
    if isPrimitiveInstance v then .literal v else .nonExpression v

/-- `_bin_op name reverse`: builds the closure's body applied to
`(self, other)`.  After lifting `other`, the non-reversed form returns
`ScalarFunctionExpression(name, self, other)` and the reversed form
returns `ScalarFunctionExpression(name, other, self)`. -/
def binOp (name : String) (reverse : Bool) (self : Expression) (other : Operand) :
    Expression :=
  let other' := liftOperand other
  if !reverse then
    .scalarFunction name [self, other']
  else
    .scalarFunction name [other', self]

/-- `Expression.__gt__ = _bin_op(">")`. -/
def Expression.gt (self : Expression) (other : Operand) : Expression :=
  binOp ">" false self other

/-- `Expression.__lt__ = _bin_op("<")`. -/
def Expression.lt (self : Expression) (other : Operand) : Expression :=
  binOp "<" false self other

/-- `Expression.__add__ = _bin_op("+")`. -/
def Expression.add (self : Expression) (other : Operand) : Expression :=
  binOp "+" false self other

/-- `Expression.__sub__ = _bin_op("-")`. -/
def Expression.sub (self : Expression) (other : Operand) : Expression :=
  binOp "-" false self other

/-- `Expression.__mul__ = _bin_op("*")`. -/
def Expression.mul (self : Expression) (other : Operand) : Expression :=
  binOp "*" false self other

/-- `Expression.__div__ = _bin_op("/")`. -/
def Expression.div (self : Expression) (other : Operand) : Expression :=
  binOp "/" false self other

/-- `Expression.__truediv__ = _bin_op("/")`. -/
def Expression.truediv (self : Expression) (other : Operand) : Expression :=
  binOp "/" false self other

/-- `Expression.__mod__ = _bin_op("%")`. -/
def Expression.mod (self : Expression) (other : Operand) : Expression :=
  binOp "%" false self other

/-- `Expression.__radd__ = _bin_op("+", reverse=True)`. -/
def Expression.radd (self : Expression) (other : Operand) : Expression :=
  binOp "+" true self other

/-- `Expression.__rsub__ = _bin_op("-", reverse=True)`. -/
def Expression.rsub (self : Expression) (other : Operand) : Expression :=
  binOp "-" true self other

/-- `Expression.__rmul__ = _bin_op("*", reverse=True)`. -/
def Expression.rmul (self : Expression) (other : Operand) : Expression :=
  binOp "*" true self other

/-- `Expression.__rdiv__ = _bin_op("/", reverse=True)`. -/
def Expression.rdiv (self : Expression) (other : Operand) : Expression :=
  binOp "/" true self other

/-- `Expression.__rtruediv__ = _bin_op("/", reverse=True)`. -/
def Expression.rtruediv (self : Expression) (other : Operand) : Expression :=
  binOp "/" true self other

/-- `Expression.__pow__ = _bin_op("pow")`. -/
def Expression.pow (self : Expression) (other : Operand) : Expression :=
  binOp "pow" false self other

/-- `Expression.__rpow__ = _bin_op("pow", reverse=True)`. -/
def Expression.rpow (self : Expression) (other : Operand) : Expression :=
  binOp "pow" true self other

/-- `Expression.__ge__ = _bin_op(">=")`. -/
def Expression.ge (self : Expression) (other : Operand) : Expression :=
  binOp ">=" false self other

/-- `Expression.__le__ = _bin_op("<=")`. -/
def Expression.le (self : Expression) (other : Operand) : Expression :=
  binOp "<=" false self other

/-- `Expression.__eq__`: special-cased outside the `_bin_op` factory but
with the same body shape — lift `other` when it is a primitive instance,
then return `ScalarFunctionExpression("==", self, other)`. -/
def Expression.eq (self : Expression) (other : Operand) : Expression :=
  let other' :=
    match other with
    | .expr e => e
    | .value v =>
      if isPrimitiveInstance v then .literal v else .nonExpression v
  .scalarFunction "==" [self, other']

/-- `ColumnRef.to_plan`: sets `unresolved_attribute.unparsed_identifier`
to the stored name; the session is not inspected. -/
def columnRefToPlan (_session : Option RemoteSparkSession) (name : String) :
    ProtoExpression :=
  .unresolvedAttribute name

mutual

/-- The `to_plan(session)` lowering protocol, dispatched over the
variant family.

* `LiteralExpression.to_plan`: dispatches on the exact runtime type of
  the wrapped value (`value_type is int` / `is str` / `is float`); any
  other exact type — a `bool` included, since `type(True) is int` is
  false — raises `ValueError` naming the unsupported type.
* `ColumnRef.to_plan`: populates the unresolved-attribute slot.
* `SortOrder.to_plan`: delegates to the wrapped column reference's
  `to_plan`; `ascending` and `nullsLast` are not encoded.
* `ScalarFunctionExpression.to_plan`: appends the operator to
  `unresolved_function.parts` and extends
  `unresolved_function.arguments` with the lowered arguments in order;
  the first argument whose lowering raises aborts the whole call.
* a non-`Expression` object in an argument slot has no `to_plan` method:
  lowering it raises `AttributeError`. -/
def toPlan (session : Option RemoteSparkSession) :
    Expression → Except String ProtoExpression
  | .literal value =>
    match value with
    | .vInt n => .ok (.literal (.i32 n))
    | .vStr s => .ok (.literal (.string s))
    | .vFloat f => .ok (.literal (.fp64 f))
    | v => .error ("Could not convert literal for type " ++ v.runtimeType.pyName)
  | .columnRef name => .ok (columnRefToPlan session name)
  | .sortOrder colName _ _ => .ok (columnRefToPlan session colName)
  | .scalarFunction op args =>
    match toPlanList session args with
    | .ok loweredArgs => .ok (.unresolvedFunction [op] loweredArgs)
    | .error msg => .error msg
  | .nonExpression v =>
    .error ("AttributeError: " ++ v.runtimeType.pyName ++
      " object has no attribute to_plan")

/-- The list comprehension `[x.to_plan(session) for x in self._args]`:
lowers the arguments left to right; the first exception aborts the
comprehension. -/
def toPlanList (session : Option RemoteSparkSession) :
    List Expression → Except String (List ProtoExpression)
  | [] => .ok []
  | e :: es =>
    match toPlan session e with
    | .error msg => .error msg
    | .ok p =>
      match toPlanList session es with
      | .error msg => .error msg
      | .ok ps => .ok (p :: ps)

end

/-- The exact runtime types accepted by the literal lowering dispatch:
`value_type is int`, `value_type is str`, `value_type is float`. -/
def lowerableLiteral (v : PyValue) : Bool :=
  match v.runtimeType with
  | .int => true
  | .str => true
  | .float => true
  | _ => false

mutual

/-- An expression tree contains a literal node whose wrapped value's
exact runtime type is outside {int, str, float}. -/
def containsBadLiteral : Expression → Bool
  | .literal v => !lowerableLiteral v
  | .columnRef _ => false
  | .sortOrder _ _ _ => false
  | .scalarFunction _ args => containsBadLiteralList args
  | .nonExpression _ => false

/-- Some expression in the list contains a bad literal. -/
def containsBadLiteralList : List Expression → Bool
  | [] => false
  | e :: es => containsBadLiteral e || containsBadLiteralList es

end

example : toPlan none (.literal (.vInt 3)) = .ok (.literal (.i32 3)) := rfl

example :
    toPlan none (Expression.gt (.columnRef "x") (.value (.vInt 1))) =
      .ok (.unresolvedFunction [">"]
        [.unresolvedAttribute "x", .literal (.i32 1)]) := rfl

example :
    toPlan none (.literal (.vBool true)) =
      .error "Could not convert literal for type bool" := rfl

/-- Induction principle for `Expression` that presents the arguments of a
`scalarFunction` node through list membership. -/
def Expression.nestedRec {motive : Expression → Prop}
    (literal : ∀ v, motive (.literal v))
    (columnRef : ∀ n, motive (.columnRef n))
    (sortOrder : ∀ c asc nl, motive (.sortOrder c asc nl))
    (scalarFunction :
      ∀ op args, (∀ e ∈ args, motive e) → motive (.scalarFunction op args))
    (nonExpression : ∀ v, motive (.nonExpression v)) :
    ∀ e, motive e
  | .literal v => literal v
  | .columnRef n => columnRef n
  | .sortOrder c asc nl => sortOrder c asc nl
  | .scalarFunction op args =>
    scalarFunction op args (fun e he =>
      Expression.nestedRec literal columnRef sortOrder scalarFunction
        nonExpression e)
  | .nonExpression v => nonExpression v
termination_by e => sizeOf e
decreasing_by
  have h1 : sizeOf e < sizeOf args := List.sizeOf_lt_of_mem he
  simp only [Expression.scalarFunction.sizeOf_spec]
  omega

/-- `toPlanList` is exactly `mapM` of `toPlan` over the argument list. -/
theorem toPlanList_eq_mapM (s : Option RemoteSparkSession)
    (l : List Expression) : toPlanList s l = l.mapM (toPlan s) := by
  induction l with
  | nil => rfl
  | cons e es ih =>
    simp only [toPlanList, List.mapM_cons, ih]
    cases toPlan s e with
    | error msg => rfl
    | ok p =>
      cases es.mapM (toPlan s) with
      | error msg => rfl
      | ok ps => rfl

/-- If every element of the list lowers the same under two sessions, so
does the list. -/
theorem toPlanList_session_congr (s₁ s₂ : Option RemoteSparkSession)
    (l : List Expression) (h : ∀ e ∈ l, toPlan s₁ e = toPlan s₂ e) :
    toPlanList s₁ l = toPlanList s₂ l := by
  induction l with
  | nil => rfl
  | cons e es ih =>
    simp only [toPlanList]
    rw [h e (by simp), ih (fun x hx => h x (by simp [hx]))]

/-- A lowering failure of any list element makes the whole list lowering
fail. -/
theorem toPlanList_error_of_mem (s : Option RemoteSparkSession)
    (l : List Expression) (e : Expression) (he : e ∈ l) (msg : String)
    (h : toPlan s e = .error msg) :
    ∃ msg2, toPlanList s l = .error msg2 := by
  induction l with
  | nil => cases he
  | cons x xs ih =>
    rcases List.mem_cons.mp he with hex | hexs
    · subst hex
      exact ⟨msg, by simp only [toPlanList, h]⟩
    · simp only [toPlanList]
      cases hx : toPlan s x with
      | error m => exact ⟨m, rfl⟩
      | ok p =>
        rcases ih hexs with ⟨m2, hm2⟩
        exact ⟨m2, by simp only [hm2]⟩

/-- `containsBadLiteralList` agrees with `List.any`. -/
theorem containsBadLiteralList_eq_any (l : List Expression) :
    containsBadLiteralList l = l.any containsBadLiteral := by
  induction l with
  | nil => rfl
  | cons e es ih => simp [containsBadLiteralList, ih]

/-- C1: for every value whose exact runtime type is `int`, `str`, or
`float`, lowering `LiteralExpression(v)` returns a wire expression whose
literal slot is populated according to the type (`int → i32`,
`str → string`, `float → fp64`) with exactly the wrapped value, for any
session. -/
theorem literal_lowering_populates_exact_slot
    (s : Option RemoteSparkSession) :
    (∀ n : Int, toPlan s (.literal (.vInt n)) = .ok (.literal (.i32 n))) ∧
    (∀ t : String,
      toPlan s (.literal (.vStr t)) = .ok (.literal (.string t))) ∧
    (∀ f : Rat,
      toPlan s (.literal (.vFloat f)) = .ok (.literal (.fp64 f))) :=
  ⟨fun _ => rfl, fun _ => rfl, fun _ => rfl⟩

/-- C2: a non-reversed binary operator builds a
`ScalarFunctionExpression` with the operator's canonical name whose
lowering is an unresolved-function node with exactly two arguments,
lowered `a` first and lowered `b` second; the reversed form puts the
lifted `other` operand first and `self` second, so `5 + a` (dispatched
as `a.__radd__(5)`) lowers to `"+"` applied to the lowered literal `5`
and then the lowered `a`. -/
theorem bin_op_argument_order (s : Option RemoteSparkSession)
    (nm : String) (a b : Expression) (pa pb : ProtoExpression)
    (ha : toPlan s a = .ok pa) (hb : toPlan s b = .ok pb) :
    binOp nm false a (.expr b) = .scalarFunction nm [a, b] ∧
    toPlan s (binOp nm false a (.expr b)) =
      .ok (.unresolvedFunction [nm] [pa, pb]) ∧
    binOp nm true a (.expr b) = .scalarFunction nm [b, a] ∧
    (∀ v : PyValue, isPrimitiveInstance v = true →
      binOp nm true a (.value v) = .scalarFunction nm [.literal v, a]) ∧
    Expression.radd a (.value (.vInt 5)) =
      .scalarFunction "+" [.literal (.vInt 5), a] ∧
    toPlan s (Expression.radd a (.value (.vInt 5))) =
      .ok (.unresolvedFunction ["+"] [.literal (.i32 5), pa]) := by
  refine ⟨rfl, ?_, rfl, ?_, rfl, ?_⟩
  · show toPlan s (.scalarFunction nm [a, b]) = _
    simp only [toPlan, toPlanList, ha, hb]
  · intro v hv
    simp [binOp, liftOperand, hv]
  · show toPlan s (.scalarFunction "+" [.literal (.vInt 5), a]) = _
    simp only [toPlan, toPlanList, ha]

/-- C2 witness at concrete inputs. -/
theorem bin_op_argument_order_witness :
    toPlan none (binOp "-" false (.columnRef "x") (.expr (.columnRef "y"))) =
      .ok (.unresolvedFunction ["-"]
        [.unresolvedAttribute "x", .unresolvedAttribute "y"]) :=
  (bin_op_argument_order none "-" (.columnRef "x") (.columnRef "y")
    (.unresolvedAttribute "x") (.unresolvedAttribute "y") rfl rfl).2.1

/-- C3: lowering a `ScalarFunctionExpression` yields a wire node whose
`unresolved_function.parts` is the single-element list `[op]` and whose
arguments are the lowerings of the children in the original order
(`mapM` of `toPlan`, which preserves order and aborts on the first
failure); recursion preserves nesting: `(a + b) * c` lowers to `"*"`
whose first argument is the fully lowered `"+"` node and whose second is
the lowered `c`. -/
theorem scalar_function_lowering_preserves_order
    (s : Option RemoteSparkSession) (op : String) (args : List Expression)
    (a b c : Expression) (pa pb pc : ProtoExpression)
    (ha : toPlan s a = .ok pa) (hb : toPlan s b = .ok pb)
    (hc : toPlan s c = .ok pc) :
    toPlan s (.scalarFunction op args) =
      (args.mapM (toPlan s)).map (ProtoExpression.unresolvedFunction [op]) ∧
    toPlan s (Expression.mul (Expression.add a (.expr b)) (.expr c)) =
      .ok (.unresolvedFunction ["*"]
        [.unresolvedFunction ["+"] [pa, pb], pc]) := by
  constructor
  · simp only [toPlan, toPlanList_eq_mapM]
    cases args.mapM (toPlan s) with
    | error msg => rfl
    | ok ps => rfl
  · show toPlan s
      (.scalarFunction "*" [.scalarFunction "+" [a, b], c]) = _
    simp only [toPlan, toPlanList, ha, hb, hc]

/-- C3 witness at concrete inputs. -/
theorem scalar_function_lowering_preserves_order_witness :
    toPlan none
      (Expression.mul
        (Expression.add (.columnRef "a") (.expr (.columnRef "b")))
        (.expr (.literal (.vInt 7)))) =
      .ok (.unresolvedFunction ["*"]
        [.unresolvedFunction ["+"]
          [.unresolvedAttribute "a", .unresolvedAttribute "b"],
          .literal (.i32 7)]) :=
  (scalar_function_lowering_preserves_order none "*" []
    (.columnRef "a") (.columnRef "b") (.literal (.vInt 7))
    (.unresolvedAttribute "a") (.unresolvedAttribute "b")
    (.literal (.i32 7)) rfl rfl rfl).2

/-- C4: lowering a literal whose wrapped value's exact runtime type is
outside {int, str, float} returns an error naming the unsupported type
and no wire node; the error propagates uncaught, so lowering any tree
containing such a literal produces an error and no partial output. -/
theorem unsupported_literal_aborts_lowering
    (s : Option RemoteSparkSession) (v : PyValue) (e : Expression)
    (hv : lowerableLiteral v = false)
    (he : containsBadLiteral e = true) :
    toPlan s (.literal v) =
      .error ("Could not convert literal for type " ++ v.runtimeType.pyName) ∧
    ∃ msg, toPlan s e = .error msg := by
  have hbad : ∀ w : PyValue, lowerableLiteral w = false →
      toPlan s (.literal w) =
        .error ("Could not convert literal for type " ++ w.runtimeType.pyName) := by
    intro w hw
    cases w with
    | vInt n => simp [lowerableLiteral, PyValue.runtimeType] at hw
    | vStr t => simp [lowerableLiteral, PyValue.runtimeType] at hw
    | vFloat f => simp [lowerableLiteral, PyValue.runtimeType] at hw
    | vBool b => rfl
    | vList xs => rfl
  refine ⟨hbad v hv, ?_⟩
  clear hv
  induction e using Expression.nestedRec with
  | literal w =>
    simp only [containsBadLiteral, Bool.not_eq_true'] at he
    exact ⟨_, hbad w he⟩
  | columnRef n => simp [containsBadLiteral] at he
  | sortOrder c asc nl => simp [containsBadLiteral] at he
  | nonExpression w => simp [containsBadLiteral] at he
  | scalarFunction op args ih =>
    simp only [containsBadLiteral, containsBadLiteralList_eq_any,
      List.any_eq_true] at he
    rcases he with ⟨x, hx, hxbad⟩
    rcases ih x hx hxbad with ⟨m, hm⟩
    rcases toPlanList_error_of_mem s args x hx m hm with ⟨m2, hm2⟩
    exact ⟨m2, by simp only [toPlan, hm2]⟩

/-- C4 witness at concrete inputs. -/
theorem unsupported_literal_aborts_lowering_witness :
    toPlan none (.literal (.vList [])) =
      .error ("Could not convert literal for type " ++
        (PyValue.vList []).runtimeType.pyName) ∧
    ∃ msg,
      toPlan none
        (.scalarFunction "+" [.columnRef "x", .literal (.vBool true)]) =
        .error msg :=
  unsupported_literal_aborts_lowering none (.vList [])
    (.scalarFunction "+" [.columnRef "x", .literal (.vBool true)]) rfl rfl

/-- C5 counterexample: constructing a `LiteralExpression` from a list —
a value outside the recognized primitive set — succeeds (the constructor
performs no validation); the rejection only happens later, at lowering
time. -/
theorem literal_construction_accepts_list :
    LiteralExpression.init (.vList []) = .ok (.literal (.vList [])) ∧
    lowerableLiteral (.vList []) = false ∧
    toPlan none (.literal (.vList [])) =
      .error "Could not convert literal for type list" :=
  ⟨rfl, rfl, rfl⟩

/-- C5 amended: constructing a `LiteralExpression` never fails — the
constructor stores the value without validation for every value,
including values outside the recognized primitive set; such values are
rejected at lowering time by `to_plan`, not at construction time. -/
theorem literal_construction_defers_validation
    (s : Option RemoteSparkSession) (v : PyValue)
    (hv : lowerableLiteral v = false) :
    (∀ w : PyValue, LiteralExpression.init w = .ok (.literal w)) ∧
    toPlan s (.literal v) =
      .error ("Could not convert literal for type " ++
        v.runtimeType.pyName) := by
  refine ⟨fun w => rfl, ?_⟩
  cases v with
  | vInt n => simp [lowerableLiteral, PyValue.runtimeType] at hv
  | vStr t => simp [lowerableLiteral, PyValue.runtimeType] at hv
  | vFloat f => simp [lowerableLiteral, PyValue.runtimeType] at hv
  | vBool b => rfl
  | vList xs => rfl

/-- C5 amended witness at a concrete input. -/
theorem literal_construction_defers_validation_witness :
    (∀ w : PyValue, LiteralExpression.init w = .ok (.literal w)) ∧
    toPlan none (.literal (.vBool true)) =
      .error ("Could not convert literal for type " ++
        (PyValue.vBool true).runtimeType.pyName) :=
  literal_construction_defers_validation none (.vBool true) rfl

/-- C6: `desc()` builds a `SortOrder` with `ascending = false` and
`asc()` one with `ascending = true` (both with the default
`nullsLast = true`), and lowering any `SortOrder` equals lowering its
wrapped column reference alone — the `ascending` and `nullsLast`
metadata never affect the wire output. -/
theorem sort_order_metadata_not_encoded (s : Option RemoteSparkSession)
    (name : String) (ascending nullsLast : Bool) :
    ColumnRef.desc name = .sortOrder name false true ∧
    ColumnRef.asc name = .sortOrder name true true ∧
    toPlan s (.sortOrder name ascending nullsLast) =
      toPlan s (.columnRef name) :=
  ⟨rfl, rfl, rfl⟩

/-- C7: `a == b` never performs native structural or identity equality —
it always returns the `ScalarFunctionExpression` with operator `"=="`,
`self` first and the (at most once) lifted operand second, the exact
shape the generic `_bin_op` factory would produce. -/
theorem eq_always_builds_scalar_function (a : Expression) (o : Operand) :
    Expression.eq a o = .scalarFunction "==" [a, liftOperand o] ∧
    Expression.eq a o = binOp "==" false a o ∧
    (∀ v : PyValue, isPrimitiveInstance v = true →
      Expression.eq a (.value v) = .scalarFunction "==" [a, .literal v]) ∧
    (∀ b : Expression,
      Expression.eq a (.expr b) = .scalarFunction "==" [a, b]) := by
  refine ⟨?_, ?_, ?_, fun b => rfl⟩
  · cases o with
    | expr e => rfl
    | value v => rfl
  · cases o with
    | expr e => rfl
    | value v => rfl
  · intro v hv
    simp [Expression.eq, hv]

/-- C7 witness at concrete inputs. -/
theorem eq_always_builds_scalar_function_witness :
    Expression.eq (.columnRef "x") (.value (.vInt 1)) =
      .scalarFunction "==" [.columnRef "x", .literal (.vInt 1)] :=
  (eq_always_builds_scalar_function (.columnRef "x")
    (.value (.vInt 1))).2.2.1 (.vInt 1) rfl

/-- C8: the legacy division spelling (`__div__`/`__rdiv__`) and true
division (`__truediv__`/`__rtruediv__`) both construct expressions with
the same operator name `"/"`, so on any operands the two spellings are
the same expression and lower to identical wire nodes. -/
theorem division_spellings_agree (s : Option RemoteSparkSession)
    (a : Expression) (o : Operand) :
    Expression.div a o = binOp "/" false a o ∧
    Expression.truediv a o = binOp "/" false a o ∧
    Expression.div a o = Expression.truediv a o ∧
    Expression.rdiv a o = Expression.rtruediv a o ∧
    toPlan s (Expression.div a o) = toPlan s (Expression.truediv a o) ∧
    toPlan s (Expression.rdiv a o) = toPlan s (Expression.rtruediv a o) :=
  ⟨rfl, rfl, rfl, rfl, rfl, rfl⟩

/-- C9: lowering is a deterministic function of the tree alone — no node
inspects the session, so `to_plan` returns the same wire node under any
two session arguments (the absent `none` case included). -/
theorem to_plan_session_independent (e : Expression)
    (s₁ s₂ : Option RemoteSparkSession) :
    toPlan s₁ e = toPlan s₂ e := by
  induction e using Expression.nestedRec with
  | literal v => cases v <;> rfl
  | columnRef n => rfl
  | sortOrder c asc nl => rfl
  | nonExpression v => rfl
  | scalarFunction op args ih =>
    simp only [toPlan, toPlanList_session_congr s₁ s₂ args ih]

/-- C10: a boolean operand passes the lift's `isinstance` test (`bool`
is a runtime subclass of `int`) and is wrapped in a
`LiteralExpression`, so construction succeeds; yet lowering that literal
always fails because the lowering dispatch compares the exact runtime
type `bool` against `int`/`str`/`float` — e.g.
`column("x") == True` constructs but can never be lowered. -/
theorem bool_lifts_but_never_lowers (b : Bool)
    (s : Option RemoteSparkSession) (nm : String) (a : Expression) :
    isPrimitiveInstance (.vBool b) = true ∧
    liftOperand (.value (.vBool b)) = .literal (.vBool b) ∧
    toPlan s (.literal (.vBool b)) =
      .error "Could not convert literal for type bool" ∧
    binOp nm false a (.value (.vBool b)) =
      .scalarFunction nm [a, .literal (.vBool b)] ∧
    Expression.eq (.columnRef "x") (.value (.vBool true)) =
      .scalarFunction "==" [.columnRef "x", .literal (.vBool true)] ∧
    toPlan s (Expression.eq (.columnRef "x") (.value (.vBool true))) =
      .error "Could not convert literal for type bool" :=
  ⟨rfl, rfl, rfl, rfl, rfl, rfl⟩
